import Mathlib

/-!
Verification of the tgbot Telegram Bot API client core: the update
envelope decoder and its accessors (src/types/update.rs), the inline
query result serialization tags (src/types/inline_mode/query_result/mod.rs),
the request builder contract (src/methods), the long-poll update source
and the webhook receiver (modelled from the specification where the
source is not available).
-/

namespace Tgbot

/-- `Integer` from src/types/primitive.rs: the platform's integer type (i64). -/
abbrev Integer := Int

/-- Modelled from the spec: the `User` object referenced by the Update JSON
shape, with the fields exercised by the decoder test fixture
(`id`, `is_bot`, `first_name`); further optional fields carry no logic. -/
structure User where
  id : Integer
  is_bot : Bool
  first_name : String
  deriving Repr, DecidableEq

/-- Modelled from the spec: the chat object inside a message; the only field
the core reads is its id (via `Message::get_chat_id`). -/
structure Chat where
  id : Integer
  deriving Repr, DecidableEq

/-- Modelled from the spec: the `Message` data-transfer type (its source file
is not included); it carries its own id, date, an optional sender, the
containing chat and optional text, and exposes the chat id and the sender. -/
structure Message where
  id : Integer
  date : Integer
  from_user : Option User
  chat : Chat
  text : Option String
  deriving Repr, DecidableEq

/-- `Message::get_chat_id`: the id of the containing chat. -/
def Message.get_chat_id (m : Message) : Integer := m.chat.id

/-- `Message::get_user`: the sender of the message. -/
def Message.get_user (m : Message) : Option User := m.from_user

/-- Modelled from the spec: an incoming inline query; the core only reads its
`from` user. -/
structure InlineQuery where
  id : String
  from_user : User
  query : String
  deriving Repr, DecidableEq

/-- Modelled from the spec: the result of an inline query chosen by a user;
the core only reads its `from` user. -/
structure ChosenInlineResult where
  result_id : String
  from_user : User
  deriving Repr, DecidableEq

/-- Modelled from the spec: an incoming callback query; the core only reads
its `from` user. -/
structure CallbackQuery where
  id : String
  from_user : User
  deriving Repr, DecidableEq

/-- Modelled from the spec: an incoming shipping query; the core only reads
its `from` user. -/
structure ShippingQuery where
  id : String
  from_user : User
  deriving Repr, DecidableEq

/-- Modelled from the spec: an incoming pre-checkout query; the core only
reads its `from` user. -/
structure PreCheckoutQuery where
  id : String
  from_user : User
  deriving Repr, DecidableEq

/-- `UpdateKind` from src/types/update.rs: the tagged union with exactly one
of nine variants. -/
inductive UpdateKind where
  | Message (msg : Message)
  | EditedMessage (msg : Message)
  | ChannelPost (msg : Message)
  | EditedChannelPost (msg : Message)
  | InlineQuery (query : InlineQuery)
  | ChosenInlineResult (result : ChosenInlineResult)
  | CallbackQuery (query : CallbackQuery)
  | ShippingQuery (query : ShippingQuery)
  | PreCheckoutQuery (query : PreCheckoutQuery)
  deriving Repr, DecidableEq

/-- `Update` from src/types/update.rs. -/
structure Update where
  id : Integer
  kind : UpdateKind
  deriving Repr, DecidableEq

/-- `Update::get_chat_id` from src/types/update.rs lines 28-36: the chat id
of the contained message for the four message-bearing variants, `None`
otherwise. -/
def Update.get_chat_id (u : Update) : Option Integer :=
  match u.kind with
  | .Message msg | .EditedMessage msg | .ChannelPost msg | .EditedChannelPost msg =>
      some msg.get_chat_id
  | _ => none

/-- `Update::get_user` from src/types/update.rs lines 50-62: the message's
sender for the message-bearing variants, the query's `from` user for the
query variants. -/
def Update.get_user (u : Update) : Option User :=
  match u.kind with
  | .Message msg | .EditedMessage msg | .ChannelPost msg | .EditedChannelPost msg =>
      msg.get_user
  | .InlineQuery query => some query.from_user
  | .ChosenInlineResult result => some result.from_user
  | .CallbackQuery query => some query.from_user
  | .ShippingQuery query => some query.from_user
  | .PreCheckoutQuery query => some query.from_user

/-- `RawUpdate` from src/types/update.rs lines 177-189, as the raw JSON
object it is derived from: `update_id` is `none` when the field is absent
(serde rejects the object in that case since the field is not optional),
and each of the nine kind fields is optional. -/
structure RawUpdate where
  update_id : Option Integer
  message : Option Message
  edited_message : Option Message
  channel_post : Option Message
  edited_channel_post : Option Message
  inline_query : Option InlineQuery
  chosen_inline_result : Option ChosenInlineResult
  callback_query : Option CallbackQuery
  shipping_query : Option ShippingQuery
  pre_checkout_query : Option PreCheckoutQuery
  deriving Repr, DecidableEq

/-- `impl Deserialize for Update` from src/types/update.rs lines 92-123:
require `update_id`, then test the nine kind fields in the source's
if-let-chain order and take the first one present; fail when none is. -/
def decodeUpdate (raw : RawUpdate) : Except String Update :=
  match raw.update_id with
  | none => .error "missing field update_id"
  | some id =>
    if let some data := raw.message then
      .ok ⟨id, .Message data⟩
    else if let some data := raw.edited_message then
      .ok ⟨id, .EditedMessage data⟩
    else if let some data := raw.channel_post then
      .ok ⟨id, .ChannelPost data⟩
    else if let some data := raw.edited_channel_post then
      .ok ⟨id, .EditedChannelPost data⟩
    else if let some data := raw.inline_query then
      .ok ⟨id, .InlineQuery data⟩
    else if let some data := raw.chosen_inline_result then
      .ok ⟨id, .ChosenInlineResult data⟩
    else if let some data := raw.callback_query then
      .ok ⟨id, .CallbackQuery data⟩
    else if let some data := raw.shipping_query then
      .ok ⟨id, .ShippingQuery data⟩
    else if let some data := raw.pre_checkout_query then
      .ok ⟨id, .PreCheckoutQuery data⟩
    else
      .error "Can not detect update kind"

/-- The spec's precedence rule, stated from its words: the first kind field
present in the fixed order Message, EditedMessage, ChannelPost,
EditedChannelPost, InlineQuery, ChosenInlineResult, CallbackQuery,
ShippingQuery, PreCheckoutQuery. -/
def specFirstKind (raw : RawUpdate) : Option UpdateKind :=
  (raw.message.map .Message) <|>
  (raw.edited_message.map .EditedMessage) <|>
  (raw.channel_post.map .ChannelPost) <|>
  (raw.edited_channel_post.map .EditedChannelPost) <|>
  (raw.inline_query.map .InlineQuery) <|>
  (raw.chosen_inline_result.map .ChosenInlineResult) <|>
  (raw.callback_query.map .CallbackQuery) <|>
  (raw.shipping_query.map .ShippingQuery) <|>
  (raw.pre_checkout_query.map .PreCheckoutQuery)

/-- Whether at least one of the nine kind fields is present. -/
def RawUpdate.hasKindField (raw : RawUpdate) : Bool :=
  raw.message.isSome || raw.edited_message.isSome || raw.channel_post.isSome ||
  raw.edited_channel_post.isSome || raw.inline_query.isSome ||
  raw.chosen_inline_result.isSome || raw.callback_query.isSome ||
  raw.shipping_query.isSome || raw.pre_checkout_query.isSome

/-- The decoder characterized by the spec's precedence rule: it fails when
`update_id` is absent, otherwise succeeds with the first kind field present
in the fixed order, or fails when none is present. -/
theorem decodeUpdate_eq (raw : RawUpdate) :
    decodeUpdate raw =
      match raw.update_id with
      | none => .error "missing field update_id"
      | some id =>
        match specFirstKind raw with
        | some k => .ok ⟨id, k⟩
        | none => .error "Can not detect update kind" := by
  obtain ⟨uid, m, em, cp, ecp, iq, cir, cq, sq, pcq⟩ := raw
  cases uid with
  | none => rfl
  | some id =>
  cases m with
  | some v => rfl
  | none =>
  cases em with
  | some v => rfl
  | none =>
  cases cp with
  | some v => rfl
  | none =>
  cases ecp with
  | some v => rfl
  | none =>
  cases iq with
  | some v => rfl
  | none =>
  cases cir with
  | some v => rfl
  | none =>
  cases cq with
  | some v => rfl
  | none =>
  cases sq with
  | some v => rfl
  | none =>
  cases pcq with
  | some v => rfl
  | none => rfl

/-- The precedence rule yields a kind exactly when some kind field is
present. -/
theorem specFirstKind_isSome (raw : RawUpdate) :
    (specFirstKind raw).isSome = raw.hasKindField := by
  obtain ⟨uid, m, em, cp, ecp, iq, cir, cq, sq, pcq⟩ := raw
  cases m with
  | some v => rfl
  | none =>
  cases em with
  | some v => rfl
  | none =>
  cases cp with
  | some v => rfl
  | none =>
  cases ecp with
  | some v => rfl
  | none =>
  cases iq with
  | some v => rfl
  | none =>
  cases cir with
  | some v => rfl
  | none =>
  cases cq with
  | some v => rfl
  | none =>
  cases sq with
  | some v => rfl
  | none =>
  cases pcq with
  | some v => rfl
  | none => rfl

/-- C1: for every raw update object that contains `update_id` and at least
one kind field, decoding produces the `Update` variant of the first field
present in the fixed order Message, EditedMessage, ChannelPost,
EditedChannelPost, InlineQuery, ChosenInlineResult, CallbackQuery,
ShippingQuery, PreCheckoutQuery; later kind fields are ignored, so decoding
is deterministic. -/
theorem decodeUpdate_first_kind (raw : RawUpdate) (id : Integer)
    (hid : raw.update_id = some id) (k : UpdateKind)
    (hk : specFirstKind raw = some k) :
    decodeUpdate raw = .ok ⟨id, k⟩ := by
  rw [decodeUpdate_eq, hid, hk]

/-- Witness for C1: an object that carries both `message` and
`callback_query` decodes to the Message variant, the earlier in the fixed
order, with the later field ignored. -/
theorem decodeUpdate_first_kind_witness :
    decodeUpdate
      ⟨some 7, some ⟨1, 0, none, ⟨2⟩, none⟩, none, none, none, none, none,
        some ⟨"cb", ⟨3, false, "u"⟩⟩, none, none⟩ =
      .ok ⟨7, .Message ⟨1, 0, none, ⟨2⟩, none⟩⟩ :=
  decodeUpdate_first_kind _ 7 rfl _ rfl

/-- C2: decoding fails when `update_id` is absent; fails when `update_id` is
present but no kind field is; succeeds with the update's id equal to
`update_id` when at least one kind field is present. -/
theorem decodeUpdate_envelope (raw : RawUpdate) :
    (raw.update_id = none → decodeUpdate raw = .error "missing field update_id") ∧
    (∀ id, raw.update_id = some id → raw.hasKindField = false →
      decodeUpdate raw = .error "Can not detect update kind") ∧
    (∀ id, raw.update_id = some id → raw.hasKindField = true →
      ∃ k, decodeUpdate raw = .ok ⟨id, k⟩) := by
  refine ⟨fun h => ?_, fun id hid hnone => ?_, fun id hid hsome => ?_⟩
  · rw [decodeUpdate_eq, h]
  · have hs : (specFirstKind raw).isSome = false := by
      rw [specFirstKind_isSome, hnone]
    have hn : specFirstKind raw = none := by
      cases hsf : specFirstKind raw with
      | none => rfl
      | some k => rw [hsf] at hs; exact absurd hs (by simp)
    rw [decodeUpdate_eq, hid, hn]
  · have hs : (specFirstKind raw).isSome = true := by
      rw [specFirstKind_isSome, hsome]
    obtain ⟨k, hk⟩ := Option.isSome_iff_exists.mp hs
    exact ⟨k, by rw [decodeUpdate_eq, hid, hk]⟩

/-- Witness for C2: all three clauses at concrete inputs — a missing
`update_id` is fatal, an envelope with no kind field fails, and an envelope
with a kind field decodes with the given id. -/
theorem decodeUpdate_envelope_witness :
    decodeUpdate ⟨none, none, none, none, none, none, none, none, none, none⟩ =
      .error "missing field update_id" ∧
    decodeUpdate ⟨some 5, none, none, none, none, none, none, none, none, none⟩ =
      .error "Can not detect update kind" ∧
    (∃ k, decodeUpdate
      ⟨some 5, some ⟨1, 0, none, ⟨2⟩, none⟩, none, none, none, none, none, none,
        none, none⟩ = .ok ⟨5, k⟩) :=
  ⟨(decodeUpdate_envelope _).1 rfl,
   (decodeUpdate_envelope _).2.1 5 rfl rfl,
   (decodeUpdate_envelope _).2.2 5 rfl rfl⟩

/-- C3: the accessors dispatch per the fixed mapping table — for each
message-bearing variant `get_chat_id` returns the message's chat id and
`get_user` the message's sender; for each query variant `get_user` returns
that query's `from` user. -/
theorem accessors_dispatch :
    (∀ (id : Integer) (msg : Message),
      (Update.mk id (.Message msg)).get_chat_id = some msg.get_chat_id ∧
      (Update.mk id (.Message msg)).get_user = msg.get_user) ∧
    (∀ (id : Integer) (msg : Message),
      (Update.mk id (.EditedMessage msg)).get_chat_id = some msg.get_chat_id ∧
      (Update.mk id (.EditedMessage msg)).get_user = msg.get_user) ∧
    (∀ (id : Integer) (msg : Message),
      (Update.mk id (.ChannelPost msg)).get_chat_id = some msg.get_chat_id ∧
      (Update.mk id (.ChannelPost msg)).get_user = msg.get_user) ∧
    (∀ (id : Integer) (msg : Message),
      (Update.mk id (.EditedChannelPost msg)).get_chat_id = some msg.get_chat_id ∧
      (Update.mk id (.EditedChannelPost msg)).get_user = msg.get_user) ∧
    (∀ (id : Integer) (q : InlineQuery),
      (Update.mk id (.InlineQuery q)).get_user = some q.from_user) ∧
    (∀ (id : Integer) (r : ChosenInlineResult),
      (Update.mk id (.ChosenInlineResult r)).get_user = some r.from_user) ∧
    (∀ (id : Integer) (q : CallbackQuery),
      (Update.mk id (.CallbackQuery q)).get_user = some q.from_user) ∧
    (∀ (id : Integer) (q : ShippingQuery),
      (Update.mk id (.ShippingQuery q)).get_user = some q.from_user) ∧
    (∀ (id : Integer) (q : PreCheckoutQuery),
      (Update.mk id (.PreCheckoutQuery q)).get_user = some q.from_user) :=
  ⟨fun _ _ => ⟨rfl, rfl⟩, fun _ _ => ⟨rfl, rfl⟩, fun _ _ => ⟨rfl, rfl⟩,
   fun _ _ => ⟨rfl, rfl⟩, fun _ _ => rfl, fun _ _ => rfl, fun _ _ => rfl,
   fun _ _ => rfl, fun _ _ => rfl⟩

/-- C9: for every update whose kind is one of the five query variants,
`get_chat_id` returns `None`. -/
theorem get_chat_id_query_variants_none :
    (∀ (id : Integer) (q : InlineQuery),
      (Update.mk id (.InlineQuery q)).get_chat_id = none) ∧
    (∀ (id : Integer) (r : ChosenInlineResult),
      (Update.mk id (.ChosenInlineResult r)).get_chat_id = none) ∧
    (∀ (id : Integer) (q : CallbackQuery),
      (Update.mk id (.CallbackQuery q)).get_chat_id = none) ∧
    (∀ (id : Integer) (q : ShippingQuery),
      (Update.mk id (.ShippingQuery q)).get_chat_id = none) ∧
    (∀ (id : Integer) (q : PreCheckoutQuery),
      (Update.mk id (.PreCheckoutQuery q)).get_chat_id = none) :=
  ⟨fun _ _ => rfl, fun _ _ => rfl, fun _ _ => rfl, fun _ _ => rfl, fun _ _ => rfl⟩

/-- The `User` object of the test fixture in src/types/update.rs. -/
def fixtureUser : User := ⟨1, false, "test"⟩

/-- The `Message` object of the test fixture in src/types/update.rs:
message_id 1, date 0, sender `fixtureUser`, chat id 1, text "test". -/
def fixtureMessage : Message := ⟨1, 0, some fixtureUser, ⟨1⟩, some "test"⟩

/-- The raw update object of the test fixture in src/types/update.rs:
update_id 1 with only the `message` kind field present. -/
def fixtureRaw : RawUpdate :=
  ⟨some 1, some fixtureMessage, none, none, none, none, none, none, none, none⟩

/-- C7: decoding the fixture update succeeds with id 1 and a Message kind;
`get_chat_id` returns 1 and `get_user` returns the user with id 1. -/
theorem decode_fixture :
    decodeUpdate fixtureRaw = .ok ⟨1, .Message fixtureMessage⟩ ∧
    (Update.mk 1 (.Message fixtureMessage)).get_chat_id = some 1 ∧
    ((Update.mk 1 (.Message fixtureMessage)).get_user.map User.id) = some 1 :=
  ⟨rfl, rfl, rfl⟩

/-- Modelled from the spec: the payload of an inline query result variant.
The individual result types (article, audio, … and their cached forms) live
in source files that are not included; every one carries a unique `id`
string plus media fields that play no role in the externally tagged
serialization, whose tag depends only on the variant. -/
structure InlineQueryResultPayload where
  id : String
  deriving Repr, DecidableEq

/-- Link to an article or web page. -/
abbrev InlineQueryResultArticle := InlineQueryResultPayload
/-- Link to an mp3 audio file. -/
abbrev InlineQueryResultAudio := InlineQueryResultPayload
/-- Link to an mp3 audio file stored on the Telegram servers. -/
abbrev InlineQueryResultCachedAudio := InlineQueryResultPayload
/-- Link to a file stored on the Telegram servers. -/
abbrev InlineQueryResultCachedDocument := InlineQueryResultPayload
/-- Link to an animated GIF file stored on the Telegram servers. -/
abbrev InlineQueryResultCachedGif := InlineQueryResultPayload
/-- Link to a video animation stored on the Telegram servers. -/
abbrev InlineQueryResultCachedMpeg4Gif := InlineQueryResultPayload
/-- Link to a photo stored on the Telegram servers. -/
abbrev InlineQueryResultCachedPhoto := InlineQueryResultPayload
/-- Link to a sticker stored on the Telegram servers. -/
abbrev InlineQueryResultCachedSticker := InlineQueryResultPayload
/-- Link to a video file stored on the Telegram servers. -/
abbrev InlineQueryResultCachedVideo := InlineQueryResultPayload
/-- Link to a voice message stored on the Telegram servers. -/
abbrev InlineQueryResultCachedVoice := InlineQueryResultPayload
/-- Contact with a phone number. -/
abbrev InlineQueryResultContact := InlineQueryResultPayload
/-- Link to a file. -/
abbrev InlineQueryResultDocument := InlineQueryResultPayload
/-- Game. -/
abbrev InlineQueryResultGame := InlineQueryResultPayload
/-- Link to an animated GIF file. -/
abbrev InlineQueryResultGif := InlineQueryResultPayload
/-- Location on a map. -/
abbrev InlineQueryResultLocation := InlineQueryResultPayload
/-- Link to a video animation (H.264/MPEG-4 AVC video without sound). -/
abbrev InlineQueryResultMpeg4Gif := InlineQueryResultPayload
/-- Link to a photo. -/
abbrev InlineQueryResultPhoto := InlineQueryResultPayload
/-- Venue. -/
abbrev InlineQueryResultVenue := InlineQueryResultPayload
/-- Link to a page containing an embedded video player or a video file. -/
abbrev InlineQueryResultVideo := InlineQueryResultPayload
/-- Link to a voice recording in an .ogg container encoded with OPUS. -/
abbrev InlineQueryResultVoice := InlineQueryResultPayload

/-- `InlineQueryResult` from src/types/inline_mode/query_result/mod.rs lines
33-95: the twenty variants, in the source's declaration order. -/
inductive InlineQueryResult where
  | Article (payload : InlineQueryResultArticle)
  | Audio (payload : InlineQueryResultAudio)
  | CachedAudio (payload : InlineQueryResultCachedAudio)
  | CachedDocument (payload : InlineQueryResultCachedDocument)
  | CachedGif (payload : InlineQueryResultCachedGif)
  | CachedMpeg4Gif (payload : InlineQueryResultCachedMpeg4Gif)
  | CachedPhoto (payload : InlineQueryResultCachedPhoto)
  | CachedSticker (payload : InlineQueryResultCachedSticker)
  | CachedVideo (payload : InlineQueryResultCachedVideo)
  | CachedVoice (payload : InlineQueryResultCachedVoice)
  | Contact (payload : InlineQueryResultContact)
  | Document (payload : InlineQueryResultDocument)
  | Game (payload : InlineQueryResultGame)
  | Gif (payload : InlineQueryResultGif)
  | Location (payload : InlineQueryResultLocation)
  | Mpeg4Gif (payload : InlineQueryResultMpeg4Gif)
  | Photo (payload : InlineQueryResultPhoto)
  | Venue (payload : InlineQueryResultVenue)
  | Video (payload : InlineQueryResultVideo)
  | Voice (payload : InlineQueryResultVoice)
  deriving Repr, DecidableEq

/-- The value the `type` tag takes when an `InlineQueryResult` is serialized,
per the `serde(tag = "type")` and per-variant `serde(rename = ...)`
attributes in src/types/inline_mode/query_result/mod.rs. -/
def InlineQueryResult.serializedTypeTag : InlineQueryResult → String
  | .Article _ => "article"
  | .Audio _ => "audio"
  | .CachedAudio _ => "audio"
  | .CachedDocument _ => "document"
  | .CachedGif _ => "gif"
  | .CachedMpeg4Gif _ => "mpeg4_gif"
  | .CachedPhoto _ => "photo"
  | .CachedSticker _ => "sticker"
  | .CachedVideo _ => "video"
  | .CachedVoice _ => "voice"
  | .Contact _ => "contact"
  | .Document _ => "document"
  | .Game _ => "game"
  | .Gif _ => "gif"
  | .Location _ => "location"
  | .Mpeg4Gif _ => "mpeg4_gif"
  | .Photo _ => "photo"
  | .Venue _ => "venue"
  | .Video _ => "video"
  | .Voice _ => "voice"

/-- C10: the serialized `type` tag is not injective over variants — for each
of the seven cached/non-cached pairs both variants serialize with the
identical `type` value, so the tag alone does not determine the variant
even though the two sides of each pair are distinct values. -/
theorem serializedTypeTag_cached_pairs :
    ∀ a b : InlineQueryResultPayload,
      (InlineQueryResult.Audio a).serializedTypeTag =
        (InlineQueryResult.CachedAudio b).serializedTypeTag ∧
      (InlineQueryResult.Document a).serializedTypeTag =
        (InlineQueryResult.CachedDocument b).serializedTypeTag ∧
      (InlineQueryResult.Gif a).serializedTypeTag =
        (InlineQueryResult.CachedGif b).serializedTypeTag ∧
      (InlineQueryResult.Mpeg4Gif a).serializedTypeTag =
        (InlineQueryResult.CachedMpeg4Gif b).serializedTypeTag ∧
      (InlineQueryResult.Photo a).serializedTypeTag =
        (InlineQueryResult.CachedPhoto b).serializedTypeTag ∧
      (InlineQueryResult.Video a).serializedTypeTag =
        (InlineQueryResult.CachedVideo b).serializedTypeTag ∧
      (InlineQueryResult.Voice a).serializedTypeTag =
        (InlineQueryResult.CachedVoice b).serializedTypeTag ∧
      InlineQueryResult.Audio a ≠ InlineQueryResult.CachedAudio b :=
  fun _ _ => ⟨rfl, rfl, rfl, rfl, rfl, rfl, rfl, by simp⟩

/-- Modelled from the spec: the backoff configuration of the Long-Poll
Update Source — a floor delay used at normal speed and a capped ceiling
(the source file with the polling loop is not included). -/
structure BackoffConfig where
  floor : Nat
  ceiling : Nat
  deriving Repr, DecidableEq

/-- Modelled from the spec: one backoff step — the delay increases
(doubling) but is capped at the ceiling. -/
def BackoffConfig.next (cfg : BackoffConfig) (d : Nat) : Nat :=
  min (d * 2) cfg.ceiling

/-- Modelled from the spec: the `PollCursor` state of one Long-Poll Update
Source — the offset the next fetch will be issued with, and the backoff
delay to apply before the next attempt. -/
structure PollState where
  next_offset : Integer
  delay : Nat
  deriving Repr, DecidableEq

/-- Modelled from the spec: the outcome of one fetch-updates call as seen by
the polling loop — a (possibly empty) batch of decoded updates, or a
transport failure. -/
inductive FetchResult where
  | ok (batch : List Update)
  | transportError
  deriving Repr

/-- Modelled from the spec: one cycle of the Long-Poll Update Source. On a
successful batch, advance the cursor to one past the maximum id in the
batch (unchanged when the batch is empty) and reset the delay to the floor;
on transport failure, leave the cursor where it is and increase the backoff
delay. -/
def pollStep (cfg : BackoffConfig) (s : PollState) (r : FetchResult) : PollState :=
  match r with
  | .ok batch =>
    { next_offset :=
        match (batch.map Update.id).max? with
        | some mx => mx + 1
        | none => s.next_offset,
      delay := cfg.floor }
  | .transportError =>
    { next_offset := s.next_offset, delay := cfg.next s.delay }

/-- Modelled from the spec: the loop never stops issuing fetches on its own —
each script entry consumes exactly one attempt; the trace records, for every
attempt, the offset it is issued with and the backoff delay applied before
it. -/
def pollTrace (cfg : BackoffConfig) (s : PollState) : List FetchResult → List (Integer × Nat)
  | [] => []
  | r :: rest => (s.next_offset, s.delay) :: pollTrace cfg (pollStep cfg s r) rest

/-- A strictly increasing nonempty integer list has its last element as
maximum. -/
theorem max_of_chain_lt :
    ∀ (l : List Integer), l.Chain' (· < ·) → ∀ (hne : l ≠ []),
      l.max? = some (l.getLast hne)
  | [a], _, _ => rfl
  | a :: b :: t, h, _ => by
    have hab : a < b := (List.chain'_cons.mp h).1
    have ih := max_of_chain_lt (b :: t) (List.chain'_cons.mp h).2 (by simp)
    simp only [List.max?_cons, Option.elim_some, Option.some.injEq] at ih ⊢
    have hbx : b ≤ Option.elim t.max? b (max b) := by
      cases t.max? with
      | none => exact le_refl b
      | some y => exact le_max_left b y
    rw [max_eq_right (le_of_lt (lt_of_lt_of_le hab hbx))]
    rw [List.getLast_cons (by simp)]
    exact ih

/-- C4: after a successful nonempty batch with strictly increasing ids
u1 < … < un the cursor's next offset is un + 1 and the next fetch attempt in
any continuation of the loop is issued with exactly that offset; after an
empty batch the cursor is unchanged; the fetch that produced the batch was
itself issued with the pre-batch cursor, i.e. the cursor moves only once the
batch is processed. -/
theorem poll_cursor_advance (cfg : BackoffConfig) (s : PollState)
    (batch : List Update) (hne : batch ≠ [])
    (hmono : (batch.map Update.id).Chain' (· < ·)) :
    (pollStep cfg s (.ok batch)).next_offset =
      (batch.getLast hne).id + 1 ∧
    (∀ r rest, pollTrace cfg s (.ok batch :: r :: rest) =
      (s.next_offset, s.delay) ::
        pollTrace cfg (pollStep cfg s (.ok batch)) (r :: rest)) ∧
    (∀ r rest, (pollTrace cfg (pollStep cfg s (.ok batch)) (r :: rest)).head? =
      some ((batch.getLast hne).id + 1, cfg.floor)) ∧
    (pollStep cfg s (.ok [])).next_offset = s.next_offset := by
  have hmapne : batch.map Update.id ≠ [] := by
    simp [hne]
  have hmax := max_of_chain_lt (batch.map Update.id) hmono hmapne
  have hlast : (batch.map Update.id).getLast hmapne = (batch.getLast hne).id := by
    rw [List.getLast_map Update.id batch hmapne]
  have hoff : (pollStep cfg s (.ok batch)).next_offset = (batch.getLast hne).id + 1 := by
    simp only [pollStep, hmax, hlast]
  refine ⟨hoff, fun r rest => rfl, fun r rest => ?_, rfl⟩
  simp only [pollTrace, List.head?_cons]
  rw [hoff]
  rfl

/-- Witness for C4 at a concrete batch with ids 3 < 5: the cursor advances
to 6, the next fetch is issued at 6, and an empty batch leaves the cursor
in place. -/
theorem poll_cursor_advance_witness :
    (pollStep ⟨1, 32⟩ ⟨2, 1⟩
        (.ok [⟨3, .ShippingQuery ⟨"s", ⟨9, false, "u"⟩⟩⟩,
              ⟨5, .ShippingQuery ⟨"t", ⟨9, false, "u"⟩⟩⟩])).next_offset = 6 ∧
    (pollTrace ⟨1, 32⟩
        (pollStep ⟨1, 32⟩ ⟨2, 1⟩
          (.ok [⟨3, .ShippingQuery ⟨"s", ⟨9, false, "u"⟩⟩⟩,
                ⟨5, .ShippingQuery ⟨"t", ⟨9, false, "u"⟩⟩⟩]))
        [.transportError]).head? = some (6, 1) ∧
    (pollStep ⟨1, 32⟩ ⟨2, 1⟩ (.ok [])).next_offset = 2 := by
  have h := poll_cursor_advance ⟨1, 32⟩ ⟨2, 1⟩
    [⟨3, .ShippingQuery ⟨"s", ⟨9, false, "u"⟩⟩⟩,
     ⟨5, .ShippingQuery ⟨"t", ⟨9, false, "u"⟩⟩⟩]
    (by simp) (by simp [List.chain'_cons])
  exact ⟨h.1, h.2.2.1 .transportError [], h.2.2.2⟩

/-- Modelled from the spec: the state reached after the loop has consumed a
script of fetch results. -/
def pollRun (cfg : BackoffConfig) (s : PollState) (script : List FetchResult) : PollState :=
  script.foldl (pollStep cfg) s

/-- Every script entry produces exactly one fetch attempt. -/
theorem pollTrace_length (cfg : BackoffConfig) :
    ∀ (script : List FetchResult) (s : PollState),
      (pollTrace cfg s script).length = script.length
  | [], _ => rfl
  | _ :: rest, s => by
    simp only [pollTrace, List.length_cons, pollTrace_length cfg rest]

/-- The first attempt of a nonempty script is issued with the current
cursor offset and delay. -/
theorem pollTrace_head? (cfg : BackoffConfig) (s : PollState) :
    ∀ (script : List FetchResult), script ≠ [] →
      (pollTrace cfg s script).head? = some (s.next_offset, s.delay)
  | [], h => absurd rfl h
  | _ :: _, _ => rfl

/-- The backoff step never lowers a delay that is still under the ceiling. -/
theorem BackoffConfig.le_next (cfg : BackoffConfig) (d : Nat)
    (hdc : d ≤ cfg.ceiling) : d ≤ cfg.next d := by
  unfold BackoffConfig.next
  exact le_min (by omega) hdc

/-- The backoff step never exceeds the ceiling. -/
theorem BackoffConfig.next_le_ceiling (cfg : BackoffConfig) (d : Nat) :
    cfg.next d ≤ cfg.ceiling := min_le_right _ _

/-- The sequence of per-attempt backoff delays produced by a run of
consecutive failures: the current delay, then each backoff of it in turn. -/
def backoffDelays (cfg : BackoffConfig) : Nat → Nat → List Nat
  | d, 0 => [d]
  | d, n + 1 => d :: backoffDelays cfg (cfg.next d) n

/-- Over a script of n failures followed by a success, the delays applied
before the attempts are exactly the backoff sequence of the initial delay. -/
theorem pollTrace_map_snd (cfg : BackoffConfig) (batch : List Update) :
    ∀ (n : Nat) (s : PollState),
      (pollTrace cfg s (List.replicate n .transportError ++ [.ok batch])).map
        Prod.snd = backoffDelays cfg s.delay n
  | 0, s => rfl
  | n + 1, s => by
    simp only [List.replicate_succ, List.cons_append, pollTrace, List.map_cons,
      backoffDelays]
    exact congrArg (s.delay :: ·)
      (pollTrace_map_snd cfg batch n (pollStep cfg s .transportError))

/-- The backoff sequence is non-decreasing and capped by the ceiling whenever
it starts at or below the ceiling. -/
theorem backoffDelays_chain (cfg : BackoffConfig) :
    ∀ (n : Nat) (d : Nat), d ≤ cfg.ceiling →
      (backoffDelays cfg d n).Chain' (· ≤ ·) ∧
      ∀ x ∈ backoffDelays cfg d n, x ≤ cfg.ceiling
  | 0, d, h => ⟨List.chain'_singleton d, by simpa [backoffDelays] using h⟩
  | n + 1, d, h => by
    have ih := backoffDelays_chain cfg n (cfg.next d) (cfg.next_le_ceiling d)
    constructor
    · refine List.chain'_cons'.mpr ⟨fun y hy => ?_, ih.1⟩
      cases n with
      | zero =>
        simp only [backoffDelays, List.head?_cons, Option.mem_def,
          Option.some.injEq] at hy
        subst hy
        exact cfg.le_next d h
      | succ m =>
        simp only [backoffDelays, List.head?_cons, Option.mem_def,
          Option.some.injEq] at hy
        subst hy
        exact cfg.le_next d h
    · intro x hx
      simp only [backoffDelays, List.mem_cons] at hx
      rcases hx with rfl | hx
      · exact h
      · exact ih.2 x hx

/-- C5: after every failed fetch the cursor is unchanged; a script of N
consecutive transport failures followed by the first subsequent success
drives N + 1 fetch attempts whose per-attempt backoff delays are
non-decreasing and capped by the ceiling, and that success resets the delay
to the floor, resuming normal speed. -/
theorem poll_backoff_spec (cfg : BackoffConfig) (s : PollState)
    (hdc : s.delay ≤ cfg.ceiling) (n : Nat) (batch : List Update) :
    (pollStep cfg s .transportError).next_offset = s.next_offset ∧
    (pollTrace cfg s (List.replicate n .transportError ++ [.ok batch])).length =
      n + 1 ∧
    ((pollTrace cfg s (List.replicate n .transportError ++ [.ok batch])).map
      Prod.snd).Chain' (· ≤ ·) ∧
    (∀ p ∈ pollTrace cfg s (List.replicate n .transportError ++ [.ok batch]),
      p.2 ≤ cfg.ceiling) ∧
    (pollRun cfg s (List.replicate n .transportError ++ [.ok batch])).delay =
      cfg.floor := by
  obtain ⟨hchain, hcap⟩ := backoffDelays_chain cfg n s.delay hdc
  rw [pollTrace_length]
  refine ⟨rfl, by simp, ?_, ?_, ?_⟩
  · rw [pollTrace_map_snd]
    exact hchain
  · intro p hp
    have hmem : p.2 ∈ (pollTrace cfg s
        (List.replicate n .transportError ++ [.ok batch])).map Prod.snd :=
      List.mem_map_of_mem Prod.snd hp
    rw [pollTrace_map_snd] at hmem
    exact hcap p.2 hmem
  · simp [pollRun, List.foldl_append, pollStep]

/-- Witness for C5: three consecutive failures then a success, starting from
delay 1 with ceiling 8 — four attempts, non-decreasing capped delays, cursor
held, delay back at the floor after the success. -/
theorem poll_backoff_spec_witness :
    (pollStep ⟨1, 8⟩ ⟨5, 1⟩ .transportError).next_offset = 5 ∧
    (pollTrace ⟨1, 8⟩ ⟨5, 1⟩
      (List.replicate 3 .transportError ++ [.ok []])).length = 3 + 1 ∧
    ((pollTrace ⟨1, 8⟩ ⟨5, 1⟩
      (List.replicate 3 .transportError ++ [.ok []])).map Prod.snd).Chain'
        (· ≤ ·) ∧
    (∀ p ∈ pollTrace ⟨1, 8⟩ ⟨5, 1⟩
        (List.replicate 3 .transportError ++ [.ok []]), p.2 ≤ 8) ∧
    (pollRun ⟨1, 8⟩ ⟨5, 1⟩
      (List.replicate 3 .transportError ++ [.ok []])).delay = 1 :=
  poll_backoff_spec ⟨1, 8⟩ ⟨5, 1⟩ (by decide) 3 []

/-- `RequestMethod` from src/methods (the HTTP verb of a request
descriptor). -/
inductive RequestMethod where
  | get
  | post
  deriving Repr, DecidableEq

/-- Modelled from the spec: a file attachment — binary data with a supplied
filename and content type, preserved in its multipart part. -/
structure InputFile where
  filename : String
  content_type : String
  data : List UInt8
  deriving Repr, DecidableEq

/-- Modelled from the spec: the value of one parameter of a typed call —
either plain data serialized as text, or a file attachment. -/
inductive ParamValue where
  | text (value : String)
  | file (file : InputFile)
  deriving Repr, DecidableEq

/-- Modelled from the spec: one named parameter of a typed call; the name is
the snake_case field name the JSON encoding uses. -/
structure Param where
  name : String
  value : ParamValue
  deriving Repr, DecidableEq

/-- Whether the parameter carries a file attachment. -/
def Param.isFile (p : Param) : Bool :=
  match p.value with
  | .file _ => true
  | .text _ => false

/-- Modelled from the spec: one part of a multipart body — a text field or a
binary file field, under the same name the JSON encoding would use. -/
inductive Part where
  | text (name : String) (value : String)
  | file (name : String) (file : InputFile)
  deriving Repr, DecidableEq

/-- The multipart part a parameter becomes. -/
def Param.toPart (p : Param) : Part :=
  match p.value with
  | .text v => .text p.name v
  | .file f => .file p.name f

/-- `RequestBody` from src/methods: no body, a JSON body of the whole
parameter set, or a multipart body of named parts. -/
inductive RequestBody where
  | noBody
  | jsonBody (params : List Param)
  | multipartBody (parts : List Part)
  deriving Repr, DecidableEq

/-- `Request` from src/methods: the protocol-level request descriptor —
verb, path (the remote method name) and body. -/
structure Request where
  method : RequestMethod
  url : String
  body : RequestBody
  deriving Repr, DecidableEq

/-- Modelled from the spec: the Request Builder — `build(call) ->
RequestDescriptor` over a call's path and parameter set. A call with a
file-bearing field gets a POST multipart body with one part per field;
a call with only plain fields gets a POST JSON body of the whole set;
a call with no body-bearing parameters gets a GET with no body. -/
def buildRequest (path : String) (params : List Param) : Request :=
  if params.any Param.isFile then
    { method := .post, url := path, body := .multipartBody (params.map Param.toPart) }
  else if params.isEmpty then
    { method := .get, url := path, body := .noBody }
  else
    { method := .post, url := path, body := .jsonBody params }

/-- `GetMe::get_request` from src/methods/user/get_me.rs: an empty request
for path "getMe" (no parameters). -/
def getMeRequest : Request := buildRequest "getMe" []

/-- `DeleteChatPhoto` from src/methods/chat/delete_photo.rs, with the target
chat identifier (its `ChatId` rendered to its serialized form). -/
structure DeleteChatPhoto where
  chat_id : String
  deriving Repr, DecidableEq

/-- `DeleteChatPhoto::get_request` from src/methods/chat/delete_photo.rs: a
POST to "deleteChatPhoto" with the whole parameter set as a JSON body. -/
def DeleteChatPhoto.get_request (m : DeleteChatPhoto) : Request :=
  { method := .post, url := "deleteChatPhoto",
    body := .jsonBody [⟨"chat_id", .text m.chat_id⟩] }

/-- C6: the body encoding of a built request is fully determined by file
presence — a parameter set with a file field yields a multipart body whose
parts are the file as a binary part and every other parameter as a text
part under its JSON field name; a set without a file field and at least one
parameter yields a JSON body of the whole set; the verb is GET exactly for
calls with no body-bearing parameters, POST otherwise. The two concrete
methods in the source conform: `getMe` builds as the no-parameter call and
`deleteChatPhoto` as the fileless one-parameter call. -/
theorem buildRequest_encoding (path : String) (params : List Param) :
    (params.any Param.isFile = true →
      buildRequest path params =
        ⟨.post, path, .multipartBody (params.map Param.toPart)⟩ ∧
      (∀ p ∈ params, p.isFile = true →
        Part.file p.name (match p.value with | .file f => f | .text _ => ⟨"", "", []⟩) ∈
          params.map Param.toPart) ∧
      (∀ p ∈ params, p.isFile = false →
        Part.text p.name (match p.value with | .text v => v | .file _ => "") ∈
          params.map Param.toPart)) ∧
    (params.any Param.isFile = false → params ≠ [] →
      buildRequest path params = ⟨.post, path, .jsonBody params⟩) ∧
    ((buildRequest path params).method = .get ↔ params = []) ∧
    (∀ m : DeleteChatPhoto,
      m.get_request = buildRequest "deleteChatPhoto" [⟨"chat_id", .text m.chat_id⟩]) ∧
    getMeRequest = ⟨.get, "getMe", .noBody⟩ := by
  refine ⟨fun hfile => ⟨?_, ?_, ?_⟩, fun hnofile hne => ?_, ?_, fun m => ?_, rfl⟩
  · simp [buildRequest, hfile]
  · intro p hp hpf
    have : p.toPart = Part.file p.name
        (match p.value with | .file f => f | .text _ => ⟨"", "", []⟩) := by
      unfold Param.toPart Param.isFile at *
      cases hv : p.value with
      | text v => rw [hv] at hpf; simp at hpf
      | file f => simp [hv]
    exact this ▸ List.mem_map_of_mem Param.toPart hp
  · intro p hp hpf
    have : p.toPart = Part.text p.name
        (match p.value with | .text v => v | .file _ => "") := by
      unfold Param.toPart Param.isFile at *
      cases hv : p.value with
      | text v => simp [hv]
      | file f => rw [hv] at hpf; simp at hpf
    exact this ▸ List.mem_map_of_mem Param.toPart hp
  · simp [buildRequest, hnofile, hne]
  · constructor
    · intro hget
      by_contra hne
      unfold buildRequest at hget
      rcases hany : params.any Param.isFile with _ | _
      · simp [hany, hne] at hget
      · simp [hany] at hget
    · intro hnil
      subst hnil
      rfl
  · simp [buildRequest, DeleteChatPhoto.get_request, Param.isFile]

/-- Witness for C6: the file-bearing and fileless clauses evaluated at a
one-file-one-text call, at `deleteChatPhoto`, and at `getMe`. -/
theorem buildRequest_encoding_witness :
    buildRequest "sendPhoto"
        [⟨"chat_id", .text "1"⟩, ⟨"photo", .file ⟨"p.jpg", "image/jpeg", [255]⟩⟩] =
      ⟨.post, "sendPhoto",
        .multipartBody [.text "chat_id" "1", .file "photo" ⟨"p.jpg", "image/jpeg", [255]⟩]⟩ ∧
    buildRequest "deleteChatPhoto" [⟨"chat_id", .text "42"⟩] =
      ⟨.post, "deleteChatPhoto", .jsonBody [⟨"chat_id", .text "42"⟩]⟩ ∧
    ((buildRequest "getMe" []).method = .get ↔ ([] : List Param) = []) :=
  ⟨((buildRequest_encoding "sendPhoto"
      [⟨"chat_id", .text "1"⟩, ⟨"photo", .file ⟨"p.jpg", "image/jpeg", [255]⟩⟩]).1
      (by decide)).1,
   (buildRequest_encoding "deleteChatPhoto" [⟨"chat_id", .text "42"⟩]).2.1
      (by decide) (by decide),
   (buildRequest_encoding "getMe" []).2.2.1⟩

/-- Modelled from the spec: the method of an inbound HTTP request to the
webhook listener. -/
inductive HttpMethod where
  | get
  | post
  | put
  | delete
  deriving Repr, DecidableEq

/-- Modelled from the spec: the `WebhookBinding` — the single configured
path (the listen address plays no role in per-request handling). -/
structure WebhookBinding where
  path : String
  deriving Repr, DecidableEq

/-- Modelled from the spec: the outcome of the caller-supplied handler,
caught at the boundary between the core and the handler. -/
inductive HandlerOutcome where
  | ok
  | failed (message : String)
  deriving Repr, DecidableEq

/-- The fixed success status the receiver acknowledges with. -/
def successStatus : Nat := 200

/-- The status returned for any other path or method. -/
def notFoundStatus : Nat := 404

/-- Modelled from the spec: per-request webhook handling. The body is the
inbound payload as parsed: `none` when it is not a well-formed raw update
object. A POST to the configured path is always acknowledged with the
success status once the body has been read: a malformed body or a decode
failure is logged, a handler failure is caught and logged, and neither is
surfaced in the response. Requests to any other path or method get a
not-found response without invoking the handler. The function is pure and
takes no listener state, so no request outcome can terminate the listener
or affect another request. -/
def handleWebhookRequest (binding : WebhookBinding) (method : HttpMethod)
    (path : String) (body : Option RawUpdate)
    (handler : Update → HandlerOutcome) : Nat × List String :=
  if method = .post ∧ path = binding.path then
    match body with
    | none => (successStatus, ["failed to parse update"])
    | some raw =>
      match decodeUpdate raw with
      | .error e => (successStatus, [e])
      | .ok u =>
        match handler u with
        | .ok => (successStatus, [])
        | .failed msg => (successStatus, [msg])
  else
    (notFoundStatus, [])

/-- Modelled from the spec: the listener over a sequence of inbound
requests — each request is handled independently and the listener never
stops early. -/
def runWebhookServer (binding : WebhookBinding) (handler : Update → HandlerOutcome)
    (reqs : List (HttpMethod × String × Option RawUpdate)) : List (Nat × List String) :=
  reqs.map fun r => handleWebhookRequest binding r.1 r.2.1 r.2.2 handler

/-- C8: every POST to the configured path is acknowledged with the success
status regardless of whether the body decodes or the handler succeeds; a
malformed body is logged, a handler failure is logged, and neither is
surfaced; every request of a sequence is processed and its response is
independent of the requests before it, so no failure terminates the
listener or affects subsequent requests. -/
theorem webhook_always_acknowledges (binding : WebhookBinding)
    (handler : Update → HandlerOutcome) (body : Option RawUpdate) :
    (handleWebhookRequest binding .post binding.path body handler).1 =
      successStatus ∧
    (body = none →
      (handleWebhookRequest binding .post binding.path body handler).2 ≠ []) ∧
    (∀ raw u msg, body = some raw → decodeUpdate raw = .ok u →
      handler u = .failed msg →
      (handleWebhookRequest binding .post binding.path body handler).2 = [msg]) ∧
    (∀ reqs req, runWebhookServer binding handler (reqs ++ [req]) =
      runWebhookServer binding handler reqs ++
        [handleWebhookRequest binding req.1 req.2.1 req.2.2 handler]) := by
  have hcond : (HttpMethod.post = HttpMethod.post ∧ binding.path = binding.path) :=
    ⟨rfl, rfl⟩
  refine ⟨?_, fun hb => ?_, fun raw u msg hb hd hf => ?_, fun reqs req => ?_⟩
  · unfold handleWebhookRequest
    rw [if_pos hcond]
    cases body with
    | none => rfl
    | some raw =>
      cases hd : decodeUpdate raw with
      | error e => simp [hd]
      | ok u => cases hf : handler u <;> simp [hd, hf, successStatus]
  · subst hb
    unfold handleWebhookRequest
    rw [if_pos hcond]
    simp
  · subst hb
    unfold handleWebhookRequest
    rw [if_pos hcond]
    simp [hd, hf]
  · simp [runWebhookServer]

/-- Witness for C8: a malformed body and a failing handler on the bound
path are both acknowledged with the success status and logged, and the
listener processes a request arriving after them unchanged. -/
theorem webhook_always_acknowledges_witness :
    (handleWebhookRequest ⟨"/"⟩ .post "/" none (fun _ => .failed "boom")).1 =
      successStatus ∧
    (handleWebhookRequest ⟨"/"⟩ .post "/" none (fun _ => .failed "boom")).2 ≠ [] ∧
    (handleWebhookRequest ⟨"/"⟩ .post "/"
      (some ⟨some 1, none, none, none, none, none, none, none,
        some ⟨"s", ⟨2, false, "u"⟩⟩, none⟩)
      (fun _ => .failed "boom")).2 = ["boom"] ∧
    runWebhookServer ⟨"/"⟩ (fun _ => .failed "boom")
        ([(.post, "/", none)] ++ [(.post, "/", none)]) =
      runWebhookServer ⟨"/"⟩ (fun _ => .failed "boom") [(.post, "/", none)] ++
        [handleWebhookRequest ⟨"/"⟩ .post "/" none (fun _ => .failed "boom")] := by
  have h := webhook_always_acknowledges ⟨"/"⟩ (fun _ => .failed "boom") none
  have h2 := webhook_always_acknowledges ⟨"/"⟩ (fun _ => .failed "boom")
    (some ⟨some 1, none, none, none, none, none, none, none,
      some ⟨"s", ⟨2, false, "u"⟩⟩, none⟩)
  exact ⟨h.1, h.2.1 rfl,
    h2.2.2.1 _ ⟨1, .ShippingQuery ⟨"s", ⟨2, false, "u"⟩⟩⟩ "boom" rfl rfl rfl,
    h.2.2.2 [(.post, "/", none)] (.post, "/", none)⟩

end Tgbot
